import Mathlib

/-
Verification of the HDBAssist UI source (src/ui.py).

The development shallowly embeds the pure logic of ui.py:

* `_extract_json_anywhere` and `extract_json_from_flowise_response`
  (the response extractor, src/ui.py lines 153-187),
* `call_flowise` request construction (lines 189-206),
* `render_decision` (lines 211-265),
* the question strings built by the tab handlers (lines 370-391, 483-491).

JSON values are modelled by the inductive `JsonVal`; Python truthiness of a
decoded JSON value by `pyTruthy`.  The extractor definitions are parameterised
by the decoding function `loads` standing for Python `json.loads`; a concrete
executable model `json_loads` (faithful on the JSON subset used by the
concrete inputs below: objects, arrays, strings without exotic escapes,
integers, booleans, null) instantiates it in concrete evaluations.
-/

/-- A decoded JSON value, as produced by Python `json.loads`.
Numbers are modelled as integers (the concrete inputs used below contain no
floats). -/
inductive JsonVal where
  | null : JsonVal
  | bool (b : Bool) : JsonVal
  | num (n : Int) : JsonVal
  | str (s : String) : JsonVal
  | arr (elems : List JsonVal) : JsonVal
  | obj (fields : List (String × JsonVal)) : JsonVal

mutual

/-- Structural equality of decoded JSON values (Python `==` on the values
`json.loads` produces). -/
def JsonVal.beq : JsonVal → JsonVal → Bool
  | .null, .null => true
  | .bool a, .bool b => a == b
  | .num a, .num b => a == b
  | .str a, .str b => a == b
  | .arr xs, .arr ys => JsonVal.beqList xs ys
  | .obj xs, .obj ys => JsonVal.beqFields xs ys
  | _, _ => false

/-- Elementwise equality of JSON arrays. -/
def JsonVal.beqList : List JsonVal → List JsonVal → Bool
  | [], [] => true
  | x :: xs, y :: ys => JsonVal.beq x y && JsonVal.beqList xs ys
  | _, _ => false

/-- Entrywise equality of JSON object field lists. -/
def JsonVal.beqFields :
    List (String × JsonVal) → List (String × JsonVal) → Bool
  | [], [] => true
  | (k1, v1) :: xs, (k2, v2) :: ys =>
      k1 == k2 && JsonVal.beq v1 v2 && JsonVal.beqFields xs ys
  | _, _ => false

end

/-- Comparing a decoded JSON value against a string literal with `JsonVal.beq`
is exactly propositional equality with the corresponding `JsonVal.str`. -/
theorem JsonVal.beq_str_iff (v : JsonVal) (s : String) :
    JsonVal.beq v (.str s) = true ↔ v = .str s := by
  cases v <;> simp [JsonVal.beq]

/-- Python truthiness of a decoded JSON value: `None`, `False`, `0`, `""`,
`[]` and the empty dict are falsy, everything else is truthy. -/
def pyTruthy : JsonVal → Bool
  | .null => false
  | .bool b => b
  | .num n => n != 0
  | .str s => s != ""
  | .arr elems => !elems.isEmpty
  | .obj fields => !fields.isEmpty

/-- The four JSON whitespace characters skipped by Python `json.loads`. -/
def jsonWs (c : Char) : Bool :=
  c == ' ' || c == '\t' || c == '\n' || c == '\r'

/-- Drop leading JSON whitespace. -/
def skipWs : List Char → List Char
  | [] => []
  | c :: cs => if jsonWs c then skipWs cs else c :: cs

/-- Parse the body of a JSON string literal (after the opening quote),
returning the decoded characters and the remainder after the closing quote. -/
def parseStrChars : List Char → Option (List Char × List Char)
  | [] => none
  | c :: cs =>
    if c = '"' then some ([], cs)
    else if c = '\\' then
      match cs with
      | [] => none
      | e :: cs2 =>
        let dec : Option Char :=
          if e = '"' then some '"'
          else if e = '\\' then some '\\'
          else if e = '/' then some '/'
          else if e = 'n' then some '\n'
          else if e = 't' then some '\t'
          else if e = 'r' then some '\r'
          else none
        match dec with
        | none => none
        | some d =>
          match parseStrChars cs2 with
          | none => none
          | some (rest, rem) => some (d :: rest, rem)
    else
      match parseStrChars cs with
      | none => none
      | some (rest, rem) => some (c :: rest, rem)

/-- Split a leading run of decimal digits from the input. -/
def takeDigits : List Char → List Char × List Char
  | [] => ([], [])
  | c :: cs =>
    if c.isDigit then
      let (ds, rest) := takeDigits cs
      (c :: ds, rest)
    else ([], c :: cs)

/-- Decimal value of a digit run. -/
def digitsToNat (ds : List Char) : Nat :=
  ds.foldl (fun acc c => acc * 10 + (c.toNat - 48)) 0

/-- Match a literal character sequence at the head of the input. -/
def stripPre : List Char → List Char → Option (List Char)
  | [], cs => some cs
  | p :: ps, c :: cs => if c = p then stripPre ps cs else none
  | _ :: _, [] => none

mutual

/-- Fuel-indexed JSON value parser (model of the Python `json` decoder on the
subset used here). -/
def parseVal : Nat → List Char → Option (JsonVal × List Char)
  | 0, _ => none
  | fuel + 1, cs =>
    match skipWs cs with
    | [] => none
    | c :: rest =>
      if c = '\x7b' then
        match skipWs rest with
        | [] => none
        | d :: rest2 =>
          if d = '\x7d' then some (.obj [], rest2)
          else
            match parseMembers fuel rest with
            | some (fields, rem) => some (.obj fields, rem)
            | none => none
      else if c = '[' then
        match skipWs rest with
        | [] => none
        | d :: rest2 =>
          if d = ']' then some (.arr [], rest2)
          else
            match parseElems fuel rest with
            | some (elems, rem) => some (.arr elems, rem)
            | none => none
      else if c = '"' then
        match parseStrChars rest with
        | some (chars, rem) => some (.str (String.mk chars), rem)
        | none => none
      else if c = 't' then
        match stripPre ['r', 'u', 'e'] rest with
        | some rem => some (.bool true, rem)
        | none => none
      else if c = 'f' then
        match stripPre ['a', 'l', 's', 'e'] rest with
        | some rem => some (.bool false, rem)
        | none => none
      else if c = 'n' then
        match stripPre ['u', 'l', 'l'] rest with
        | some rem => some (.null, rem)
        | none => none
      else if c = '-' then
        match takeDigits rest with
        | ([], _) => none
        | (ds, rem) => some (.num (-(digitsToNat ds : Int)), rem)
      else if c.isDigit then
        let (ds, rem) := takeDigits (c :: rest)
        some (.num (digitsToNat ds), rem)
      else none

/-- Parse the members of a JSON object (called after the opening brace when
the object is non-empty); consumes through the closing brace. -/
def parseMembers : Nat → List Char → Option (List (String × JsonVal) × List Char)
  | 0, _ => none
  | fuel + 1, cs =>
    match skipWs cs with
    | [] => none
    | c :: rest =>
      if c = '"' then
        match parseStrChars rest with
        | none => none
        | some (keyChars, afterKey) =>
          match skipWs afterKey with
          | [] => none
          | k :: afterColon =>
            if k = ':' then
              match parseVal fuel afterColon with
              | none => none
              | some (v, afterVal) =>
                match skipWs afterVal with
                | [] => none
                | m :: afterSep =>
                  if m = ',' then
                    match parseMembers fuel afterSep with
                    | some (fields, rem) =>
                        some ((String.mk keyChars, v) :: fields, rem)
                    | none => none
                  else if m = '\x7d' then
                    some ([(String.mk keyChars, v)], afterSep)
                  else none
            else none
      else none

/-- Parse the elements of a JSON array (called after the opening bracket when
the array is non-empty); consumes through the closing bracket. -/
def parseElems : Nat → List Char → Option (List JsonVal × List Char)
  | 0, _ => none
  | fuel + 1, cs =>
    match parseVal fuel cs with
    | none => none
    | some (v, afterVal) =>
      match skipWs afterVal with
      | [] => none
      | m :: afterSep =>
        if m = ',' then
          match parseElems fuel afterSep with
          | some (elems, rem) => some (v :: elems, rem)
          | none => none
        else if m = ']' then some ([v], afterSep)
        else none

end

/-- Model of Python `json.loads`: parse a complete JSON document, rejecting
trailing non-whitespace. -/
def json_loads (s : String) : Option JsonVal :=
  match parseVal (2 * s.length + 2) s.data with
  | some (v, rem) => if skipWs rem = [] then some v else none
  | none => none

example : json_loads "\x7b\x7d" = some (.obj []) := rfl
example : json_loads "\x7b\"a\": 1\x7d" = some (.obj [("a", .num 1)]) := rfl
example : json_loads "[1, 2]" = some (.arr [.num 1, .num 2]) := rfl
example : json_loads "\"hello\"" = some (.str "hello") := rfl
example : json_loads "not json" = none := rfl
example : json_loads "-5" = some (.num (-5)) := rfl
example : json_loads " true " = some (.bool true) := rfl
example : json_loads "\x7b\"a\": [true, null], \"b\": \"x\"\x7d"
    = some (.obj [("a", .arr [.bool true, .null]), ("b", .str "x")]) := rfl

/-- Whitespace stripped by Python `str.strip()` (ASCII subset: space, tab,
newline, carriage return, vertical tab, form feed). -/
def pyWs (c : Char) : Bool :=
  c == ' ' || c == '\t' || c == '\n' || c == '\r' || c == '\x0b' || c == '\x0c'

/-- Model of Python `str.strip()`: drop leading and trailing whitespace. -/
def pyStrip (s : String) : String :=
  String.mk (((s.data.dropWhile (fun c => pyWs c)).reverse.dropWhile
    (fun c => pyWs c)).reverse)

example : pyStrip "  a b \n" = "a b" := rfl
example : pyStrip "" = "" := rfl

/-- Model of the regex salvage `re.search(r"\x7b.*\x7d", t, flags=re.S)` used
by `_extract_json_anywhere` (src/ui.py line 160): first index of an opening
brace. -/
def idxOf (cs : List Char) (t : Char) : Option Nat :=
  match cs with
  | [] => none
  | c :: rest => if c = t then some 0 else (idxOf rest t).map (fun n => n + 1)

/-- Index of the last occurrence of a character. -/
def lastIdxOf (cs : List Char) (t : Char) : Option Nat :=
  match idxOf cs.reverse t with
  | some j => some (cs.length - 1 - j)
  | none => none

/-- The span matched by `re.search(r"\x7b.*\x7d", t, flags=re.S)`: with a
greedy dot-matches-newline `.*`, the leftmost match runs from the first
opening brace to the last closing brace of the whole string, and exists iff
the last closing brace lies strictly after the first opening brace. -/
def braceSpan (t : String) : Option String :=
  match idxOf t.data '\x7b', lastIdxOf t.data '\x7d' with
  | some i, some j =>
    if i < j then some (String.mk ((t.data.drop i).take (j - i + 1))) else none
  | _, _ => none

example : braceSpan "ab \x7bc\x7d d \x7be\x7d f" = some "\x7bc\x7d d \x7be\x7d" := rfl
example : braceSpan "no braces" = none := rfl
example : braceSpan "\x7d \x7b" = none := rfl

/-- Embedding of `_extract_json_anywhere` (src/ui.py lines 153-166),
parameterised by the JSON decoder `loads` (Python `json.loads`): strip the
text, return `none` when empty, try a direct parse, and on failure parse the
greedy brace-delimited span if one exists. -/
def _extract_json_anywhere (loads : String → Option JsonVal) (text : String) :
    Option JsonVal :=
  let t := pyStrip text
  if t = "" then none
  else
    match loads t with
    | some v => some v
    | none =>
      match braceSpan t with
      | some sub => loads sub
      | none => none

/-- One entry of the `agentFlowExecutedData` list consumed by
`extract_json_from_flowise_response` (src/ui.py lines 173-185).  `output`
models `(node.get("data") or \x7b\x7d).get("output") or \x7b\x7d` followed by the
`isinstance(out, dict)` test: `none` when the resolved output is not a dict
(missing or falsy `data`/`output`, or a truthy non-dict), `some m` when it is
a dict with entries `m` in insertion order.  An entry value `some s` is a
string value; `none` models a non-string value, which the value loop skips
via `isinstance(v, str)` (a non-string under the key "content" is modelled in
its falsy form, probed as the empty string). -/
structure NodeRec where
  output : Option (List (String × Option String))
deriving DecidableEq

/-- The raw decoded response body probed by the extractor.  `text` models
`resp.get("text", "")` (absent field = empty string); `agentFlowExecutedData`
models `resp.get("agentFlowExecutedData") or []`. -/
structure FlowiseResp where
  text : String
  agentFlowExecutedData : List NodeRec
deriving DecidableEq

/-- Value of `out.get("content", "")` in the string-valued model. -/
def contentOf (out : List (String × Option String)) : String :=
  match out.lookup "content" with
  | some (some s) => s
  | some none => ""
  | none => ""

/-- Python truthiness of `parsed` after `parsed = _extract_json_anywhere(...)`:
`None` and falsy JSON values both fail the `if parsed:` test. -/
def truthyOpt (p : Option JsonVal) : Option JsonVal :=
  match p with
  | some v => if pyTruthy v then some v else none
  | none => none

/-- The inner loop `for v in out.values(): if isinstance(v, str): ...` of the
extractor: probe each string value in order, returning the first truthy
parse. -/
def scanValues (loads : String → Option JsonVal) :
    List (Option String) → Option JsonVal
  | [] => none
  | v :: rest =>
    match v with
    | some s =>
      match truthyOpt (_extract_json_anywhere loads s) with
      | some p => some p
      | none => scanValues loads rest
    | none => scanValues loads rest

/-- The body of the extractor's per-node iteration: probe
`out.get("content", "")` first, then every string value of `out` in order. -/
def probeNode (loads : String → Option JsonVal) (node : NodeRec) :
    Option JsonVal :=
  match node.output with
  | none => none
  | some out =>
    match truthyOpt (_extract_json_anywhere loads (contentOf out)) with
    | some p => some p
    | none => scanValues loads (out.map Prod.snd)

/-- The extractor's `for node in reversed(executed)` loop over an
already-reversed node list. -/
def scanNodes (loads : String → Option JsonVal) :
    List NodeRec → Option JsonVal
  | [] => none
  | node :: rest =>
    match probeNode loads node with
    | some p => some p
    | none => scanNodes loads rest

/-- The `RuntimeError` message raised at src/ui.py line 187. -/
def flowiseNoJsonMsg : String :=
  "Flowise response did not contain JSON. Ensure your final node returns JSON-only in the output."

/-- Embedding of `extract_json_from_flowise_response` (src/ui.py lines
168-187): probe the top-level text, then the execution trace last entry
first; `Except.error` models the `raise RuntimeError(...)`. -/
def extract_json_from_flowise_response (loads : String → Option JsonVal)
    (resp : FlowiseResp) : Except String JsonVal :=
  match truthyOpt (_extract_json_anywhere loads resp.text) with
  | some p => .ok p
  | none =>
    match scanNodes loads resp.agentFlowExecutedData.reverse with
    | some p => .ok p
    | none => .error flowiseNoJsonMsg

example :
    extract_json_from_flowise_response json_loads
      ⟨"\x7b\"a\": 1\x7d", []⟩ = .ok (.obj [("a", .num 1)]) := rfl
example :
    extract_json_from_flowise_response json_loads ⟨"\x7b\x7d", []⟩
      = .error flowiseNoJsonMsg := rfl
example :
    extract_json_from_flowise_response json_loads
      ⟨"", [⟨some [("content", some "\x7b\"a\": 1\x7d")]⟩]⟩
      = .ok (.obj [("a", .num 1)]) := rfl

/-- The configuration surface read at src/ui.py lines 117-119: base URL (with
trailing slash already stripped), chatflow id and API key, each defaulting as
in the source (`FLOWISE_API_KEY` defaults to the empty string, so an
unconfigured key is modelled by `apiKey = ""`). -/
structure FlowiseConfig where
  baseUrl : String
  chatflowId : String
  apiKey : String
deriving DecidableEq

/-- The JSON body of the prediction request built by `call_flowise`
(src/ui.py lines 194-196): `question` and `sessionId` always,
`overrideConfig` only when added. -/
structure PredictionBody where
  question : String
  sessionId : String
  overrideConfig : Option (List (String × String))
deriving DecidableEq

/-- The single outbound HTTP request performed by `call_flowise` via
`requests.post(url, json=payload, headers=headers, timeout=180)`
(src/ui.py line 202). -/
structure HttpRequest where
  method : String
  url : String
  headers : List (String × String)
  body : PredictionBody
  timeout : Nat
deriving DecidableEq

/-- Embedding of the request-construction part of `call_flowise` (src/ui.py
lines 189-202): fail when the chatflow id is falsy, otherwise build the one
POST request.  `extra` models the optional overrides dict (`none` = the
`None` default); `if extra:` is Python truthiness, so an empty dict is not
attached. -/
def call_flowise_request (cfg : FlowiseConfig) (sid : String)
    (question : String) (extra : Option (List (String × String))) :
    Except String HttpRequest :=
  if cfg.chatflowId = "" then
    .error "FLOWISE_CHATFLOW_ID is missing. Add it to .env"
  else
    .ok
      { method := "POST"
        url := cfg.baseUrl ++ "/api/v1/prediction/" ++ cfg.chatflowId
        headers :=
          ("Content-Type", "application/json") ::
            (if cfg.apiKey = "" then []
             else [("Authorization", "Bearer " ++ cfg.apiKey)])
        body :=
          { question := question
            sessionId := sid
            overrideConfig :=
              match extra with
              | some m => if m.isEmpty then none else some m
              | none => none }
        timeout := 180 }

/-- The environment defaults hard-coded at src/ui.py lines 117-119 (no .env
overrides, no API key). -/
def defaultConfig : FlowiseConfig :=
  { baseUrl := "https://cloud.flowiseai.com"
    chatflowId := "28bddf08-01dc-4472-aa7f-e6f7e2c0297f"
    apiKey := "" }

/-- The question string assembled by the report-tab submit handler
(src/ui.py lines 374-378): the issue text, a Location line and a Category
line joined by newlines. -/
def report_question (issue_text location issue_category : String) : String :=
  issue_text ++ "\n" ++ "Location: " ++ location ++ "\n" ++
    "Category: " ++ issue_category

/-- The question string assembled by the evaluation-tab run handler
(src/ui.py lines 484-487): issue and Location line joined by a newline, then
stripped. -/
def eval_mode_question (issue location : String) : String :=
  pyStrip (issue ++ "\n" ++ "Location: " ++ location)

/-- A rendered field slot of `render_decision`: either the field value
interpolated as-is into the template, or the literal fallback snippet used
when the value is falsy. -/
inductive RenderedBlock where
  | val (v : JsonVal) : RenderedBlock
  | placeholder (s : String) : RenderedBlock

/-- The placeholder shown for a falsy assessment (src/ui.py line 243). -/
def noAssessmentHtml : String := "<span class=\x27small\x27>(No assessment)</span>"

/-- The placeholder shown for falsy authority details (src/ui.py line 244). -/
def notEnoughInfoHtml : String := "<span class=\x27small\x27>(Not enough info)</span>"

/-- The visual output produced by one call of `render_decision` (src/ui.py
lines 211-265): the urgency pill class and value, the authority value, the
assessment and authority-details slots, and the three bullet lists, where
`none` means the bulleted list is omitted (the details header itself is
printed unconditionally). -/
structure Rendering where
  pill_class : String
  urgency : JsonVal
  authority : JsonVal
  assessment_block : RenderedBlock
  authority_block : RenderedBlock
  next_steps_bullets : Option (List JsonVal)
  details_header : String
  details_bullets : Option (List JsonVal)
  questions_bullets : Option (List JsonVal)

/-- `data.get(key, default)` on the Recommendation mapping. -/
def dget (data : List (String × JsonVal)) (key : String) (dflt : JsonVal) :
    JsonVal :=
  (data.lookup key).getD dflt

/-- The guard `isinstance(x, list) and x` used before each bullet list:
`some elems` exactly when the value is a non-empty JSON array. -/
def bulletsOf (v : JsonVal) : Option (List JsonVal) :=
  match v with
  | .arr [] => none
  | .arr (e :: es) => some (e :: es)
  | _ => none

/-- Embedding of `render_decision` (src/ui.py lines 211-265) as a pure total
function on the Recommendation mapping: every field access is a
`data.get(...)` with a default, so no input raises, and the input mapping is
never written to. -/
def render_decision (data : List (String × JsonVal)) : Rendering :=
  let urgency := dget data "urgency_level" (.str "Normal")
  let authority := dget data "recommended_authority" (.str "Other")
  let authority_details := dget data "recommended_authority_details" (.str "")
  let assessment := dget data "assessment" (.str "")
  let next_steps := dget data "next_steps" (.arr [])
  let details_to_prepare := dget data "details_to_prepare" (.arr [])
  let questions := dget data "questions_if_missing" (.arr [])
  let pill_class :=
    if JsonVal.beq urgency (.str "Emergency") then "danger"
    else if JsonVal.beq urgency (.str "High") then "warn"
    else "ok"
  { pill_class := pill_class
    urgency := urgency
    authority := authority
    assessment_block :=
      if pyTruthy assessment then .val assessment
      else .placeholder noAssessmentHtml
    authority_block :=
      if pyTruthy authority_details then .val authority_details
      else .placeholder notEnoughInfoHtml
    next_steps_bullets := bulletsOf next_steps
    details_header := "**What details to prepare**"
    details_bullets := bulletsOf details_to_prepare
    questions_bullets := bulletsOf questions }

/-- Outcome of the report-tab submit handler after the Flowise call returned
a body (src/ui.py lines 380-391): `errorShown` models the
`except Exception: st.error(...); st.stop()` branch (nothing rendered),
`rendered` the `render_decision(data)` call, and `exceptionRaised` an
uncaught exception (`render_decision` applied to a non-dict extraction
result calls `.get` on it and raises). -/
inductive HandlerOutcome where
  | errorShown (msg : String) : HandlerOutcome
  | rendered (r : Rendering) : HandlerOutcome
  | exceptionRaised : HandlerOutcome

/-- The report-tab submit handler's treatment of a decoded response body:
extraction failure is caught and shown as an error without rendering;
a successful extraction is rendered. -/
def tab_report_on_response (loads : String → Option JsonVal)
    (raw : FlowiseResp) : HandlerOutcome :=
  match extract_json_from_flowise_response loads raw with
  | .error e => .errorShown ("Flowise call failed: " ++ e)
  | .ok (.obj fields) => .rendered (render_decision fields)
  | .ok _ => .exceptionRaised

/-- Scan a list of candidate strings in order, returning the first parse that
is truthy under `pyTruthy` (the way every `parsed = ...; if parsed:` step of
the extractor treats a candidate). -/
def firstTruthyParse (loads : String → Option JsonVal) :
    List String → Option JsonVal
  | [] => none
  | s :: rest =>
    match truthyOpt (_extract_json_anywhere loads s) with
    | some v => some v
    | none => firstTruthyParse loads rest

/-- The candidate strings one trace entry contributes, in probe order: the
`content` field first, then every string value of the output mapping in the
mapping's native order. -/
def nodeCandidates (node : NodeRec) : List String :=
  match node.output with
  | none => []
  | some out => contentOf out :: (out.map Prod.snd).filterMap id

/-- All trace candidate strings in probe order: entries last-to-first, each
contributing its `nodeCandidates`. -/
def traceCandidates (resp : FlowiseResp) : List String :=
  (resp.agentFlowExecutedData.reverse).flatMap nodeCandidates

/-- Every candidate string the extractor probes, in probe order: the
top-level text, then the trace candidates. -/
def allCandidates (resp : FlowiseResp) : List String :=
  resp.text :: traceCandidates resp

theorem scanValues_eq (loads : String → Option JsonVal)
    (l : List (Option String)) :
    scanValues loads l = firstTruthyParse loads (l.filterMap id) := by
  induction l with
  | nil => rfl
  | cons v rest ih =>
    cases v with
    | none => simpa [scanValues, List.filterMap_cons] using ih
    | some s =>
      cases h : truthyOpt (_extract_json_anywhere loads s) with
      | some p => simp [scanValues, firstTruthyParse, List.filterMap_cons, h]
      | none => simp [scanValues, firstTruthyParse, List.filterMap_cons, h, ih]

theorem probeNode_eq (loads : String → Option JsonVal) (node : NodeRec) :
    probeNode loads node = firstTruthyParse loads (nodeCandidates node) := by
  obtain ⟨output⟩ := node
  cases output with
  | none => rfl
  | some out =>
    cases h : truthyOpt (_extract_json_anywhere loads (contentOf out)) with
    | some p => simp [probeNode, nodeCandidates, firstTruthyParse, h]
    | none =>
      simp [probeNode, nodeCandidates, firstTruthyParse, h, scanValues_eq]

theorem firstTruthyParse_append (loads : String → Option JsonVal)
    (xs ys : List String) :
    firstTruthyParse loads (xs ++ ys) =
      match firstTruthyParse loads xs with
      | some v => some v
      | none => firstTruthyParse loads ys := by
  induction xs with
  | nil => rfl
  | cons s rest ih =>
    cases h : truthyOpt (_extract_json_anywhere loads s) with
    | some p => simp [firstTruthyParse, h]
    | none => simp [firstTruthyParse, h, ih]

theorem scanNodes_eq (loads : String → Option JsonVal) (ns : List NodeRec) :
    scanNodes loads ns = firstTruthyParse loads (ns.flatMap nodeCandidates) := by
  induction ns with
  | nil => rfl
  | cons n rest ih =>
    rw [List.flatMap_cons, firstTruthyParse_append]
    cases h : firstTruthyParse loads (nodeCandidates n) with
    | some p => simp [scanNodes, probeNode_eq, h, ih]
    | none => simp [scanNodes, probeNode_eq, h, ih]

/-- The extractor is the in-order scan of all probed candidate strings,
returning the first truthy parse or the `RuntimeError` message. -/
theorem extract_eq_scan (loads : String → Option JsonVal)
    (resp : FlowiseResp) :
    extract_json_from_flowise_response loads resp =
      match firstTruthyParse loads (allCandidates resp) with
      | some v => Except.ok v
      | none => Except.error flowiseNoJsonMsg := by
  cases h : truthyOpt (_extract_json_anywhere loads resp.text) with
  | some p =>
    simp [extract_json_from_flowise_response, allCandidates,
      firstTruthyParse, h]
  | none =>
    simp [extract_json_from_flowise_response, allCandidates, traceCandidates,
      firstTruthyParse, h, scanNodes_eq]

theorem truthyOpt_some {p : Option JsonVal} {v : JsonVal}
    (h : truthyOpt p = some v) : pyTruthy v = true := by
  cases p with
  | none => simp [truthyOpt] at h
  | some w =>
    simp only [truthyOpt] at h
    by_cases hw : pyTruthy w
    · simp only [hw, if_true] at h
      cases h
      exact hw
    · simp [hw] at h

theorem firstTruthyParse_truthy (loads : String → Option JsonVal) :
    ∀ (l : List String) (v : JsonVal),
      firstTruthyParse loads l = some v → pyTruthy v = true := by
  intro l
  induction l with
  | nil => intro v h; simp [firstTruthyParse] at h
  | cons s rest ih =>
    intro v h
    simp only [firstTruthyParse] at h
    cases hc : truthyOpt (_extract_json_anywhere loads s) with
    | some p =>
      rw [hc] at h
      cases h
      exact truthyOpt_some hc
    | none =>
      rw [hc] at h
      exact ih v h

theorem firstTruthyParse_all_none (loads : String → Option JsonVal)
    (l : List String)
    (h : ∀ s ∈ l, _extract_json_anywhere loads s = none) :
    firstTruthyParse loads l = none := by
  induction l with
  | nil => rfl
  | cons s rest ih =>
    have hs := h s (List.mem_cons_self s rest)
    simp [firstTruthyParse, hs, truthyOpt,
      ih (fun x hx => h x (List.mem_cons_of_mem _ hx))]

/-- Response used to refute C1: the top-level text is exactly the empty JSON
object, and the trace carries a different parseable object. -/
def c1resp : FlowiseResp :=
  ⟨"\x7b\x7d", [⟨some [("content", some "\x7b\"urgency_level\": \"High\"\x7d")]⟩]⟩

/-- C1 (counterexample): the top-level text `\x7b\x7d` parses directly as JSON
(to the empty object), yet the extractor does not return that object — it
falls through to the execution trace and returns the object found there, so
the trace fallback IS consulted. -/
theorem c1_direct_parse_counterexample :
    json_loads (pyStrip "\x7b\x7d") = some (.obj [])
    ∧ extract_json_from_flowise_response json_loads c1resp
        = .ok (.obj [("urgency_level", .str "High")])
    ∧ JsonVal.obj [("urgency_level", JsonVal.str "High")] ≠ JsonVal.obj [] :=
  ⟨rfl, rfl, by intro h; injection h with h2; cases h2⟩

/-- C1 (amended): for every response whose top-level text parses directly to
a TRUTHY JSON value, the extractor returns exactly that value, and the result
does not depend on the execution trace (the trace is not consulted). -/
theorem c1_truthy_direct_parse_returns (loads : String → Option JsonVal)
    (text : String) (executed : List NodeRec) (v : JsonVal)
    (h1 : pyStrip text ≠ "") (h2 : loads (pyStrip text) = some v)
    (h3 : pyTruthy v = true) :
    extract_json_from_flowise_response loads ⟨text, executed⟩ = .ok v := by
  have he : _extract_json_anywhere loads text = some v := by
    simp [_extract_json_anywhere, h1, h2]
  simp [extract_json_from_flowise_response, he, truthyOpt, h3]

/-- Witness for the amended C1 at a concrete truthy direct parse, with a
non-empty trace whose content differs from the returned value. -/
theorem c1_truthy_direct_parse_returns_witness :
    extract_json_from_flowise_response json_loads
      ⟨"\x7b\"urgency_level\": \"High\"\x7d",
       [⟨some [("content", some "\x7b\"other\": true\x7d")]⟩]⟩
      = .ok (.obj [("urgency_level", .str "High")]) :=
  c1_truthy_direct_parse_returns json_loads "\x7b\"urgency_level\": \"High\"\x7d"
    [⟨some [("content", some "\x7b\"other\": true\x7d")]⟩]
    (.obj [("urgency_level", .str "High")]) (by decide) rfl rfl

/-- C2: when no probed candidate string (top-level text, trace `content`
strings, other string-valued output entries) yields any successful parse,
the extractor fails with the `RuntimeError` message, and the report-tab
handler shows the error and renders nothing. -/
theorem c2_unparseable_raises_no_render (loads : String → Option JsonVal)
    (resp : FlowiseResp)
    (h : ∀ s ∈ allCandidates resp, _extract_json_anywhere loads s = none) :
    extract_json_from_flowise_response loads resp = .error flowiseNoJsonMsg
    ∧ tab_report_on_response loads resp
        = .errorShown ("Flowise call failed: " ++ flowiseNoJsonMsg) := by
  have hs := firstTruthyParse_all_none loads _ h
  have he : extract_json_from_flowise_response loads resp
      = .error flowiseNoJsonMsg := by
    rw [extract_eq_scan, hs]
  exact ⟨he, by simp [tab_report_on_response, he]⟩

/-- Response used to witness C2: no candidate contains JSON. -/
def c2resp : FlowiseResp :=
  ⟨"hello there",
   [⟨some [("content", some "no json"), ("note", some "plain"), ("blob", none)]⟩,
    ⟨none⟩]⟩

/-- Witness for C2 at a concrete fully-unparseable response. -/
theorem c2_unparseable_raises_no_render_witness :
    extract_json_from_flowise_response json_loads c2resp
        = .error flowiseNoJsonMsg
    ∧ tab_report_on_response json_loads c2resp
        = .errorShown ("Flowise call failed: " ++ flowiseNoJsonMsg) :=
  c2_unparseable_raises_no_render json_loads c2resp (by
    intro s hs
    have hl : allCandidates c2resp
        = ["hello there", "no json", "no json", "plain"] := rfl
    rw [hl] at hs
    fin_cases hs <;> rfl)

/-- Response used to refute C3: empty top-level text; the single trace
entry's `content` parses successfully (to the empty object) but the
extractor skips it and returns the later entry value's parse. -/
def c3resp : FlowiseResp :=
  ⟨"", [⟨some [("content", some "\x7b\x7d"), ("x", some "\x7b\"a\": 1\x7d")]⟩]⟩

/-- C3 (counterexample): in probe order the first candidate (`content`)
parses successfully, yet the extractor does not return that parse — it
returns the parse of a later candidate, because the first parse is falsy. -/
theorem c3_first_successful_parse_counterexample :
    _extract_json_anywhere json_loads "\x7b\x7d" = some (.obj [])
    ∧ traceCandidates c3resp = ["\x7b\x7d", "\x7b\x7d", "\x7b\"a\": 1\x7d"]
    ∧ extract_json_from_flowise_response json_loads c3resp
        = .ok (.obj [("a", .num 1)])
    ∧ JsonVal.obj [("a", JsonVal.num 1)] ≠ JsonVal.obj [] :=
  ⟨rfl, rfl, rfl, by intro h; injection h with h2; cases h2⟩

/-- C3 (amended): when the top-level text yields no parse at all, the
extractor equals the in-order scan of the trace candidates — entries
last-to-first, within each entry `content` first then the string values in
native order — returning the first successful TRUTHY parse (successful falsy
parses are skipped), or failing when there is none. -/
theorem c3_trace_scan (loads : String → Option JsonVal) (resp : FlowiseResp)
    (h : _extract_json_anywhere loads resp.text = none) :
    extract_json_from_flowise_response loads resp =
      match firstTruthyParse loads (traceCandidates resp) with
      | some v => Except.ok v
      | none => Except.error flowiseNoJsonMsg := by
  rw [extract_eq_scan]
  simp [allCandidates, firstTruthyParse, h, truthyOpt]

/-- Response used to witness the amended C3: two entries; the
chronologically-later entry is scanned first and wins. -/
def c3wresp : FlowiseResp :=
  ⟨"not json at all",
   [⟨some [("content", some "\x7b\"early\": 1\x7d")]⟩,
    ⟨some [("content", some "\x7b\"late\": 2\x7d")]⟩]⟩

/-- Witness for the amended C3: the last trace entry is probed first, so its
parse is returned even though an earlier entry also parses. -/
theorem c3_trace_scan_witness :
    extract_json_from_flowise_response json_loads c3wresp
      = .ok (.obj [("late", .num 2)]) :=
  (c3_trace_scan json_loads c3wresp rfl).trans rfl

/-- Text used to refute C4: two disjoint embedded objects; the greedy span
from the first opening brace to the last closing brace is not valid JSON. -/
def c4text : String := "ans: \x7b\"a\": 1\x7d and \x7b\"b\": 2\x7d"

/-- C4 (counterexample): the trimmed text does not parse directly and embeds
a JSON object in prose; a brace-delimited span of the text (`\x7b"a": 1\x7d`)
parses successfully, yet `_extract_json_anywhere` yields nothing, because
the only span it ever tries is the greedy first-brace-to-last-brace span. -/
theorem c4_first_span_counterexample :
    json_loads (pyStrip c4text) = none
    ∧ List.IsInfix "\x7b\"a\": 1\x7d".data (pyStrip c4text).data
    ∧ "\x7b\"a\": 1\x7d".data.head? = some '\x7b'
    ∧ "\x7b\"a\": 1\x7d".data.getLast? = some '\x7d'
    ∧ json_loads "\x7b\"a\": 1\x7d" = some (.obj [("a", .num 1)])
    ∧ _extract_json_anywhere json_loads c4text = none :=
  ⟨rfl, ⟨"ans: ".data, " and \x7b\"b\": 2\x7d".data, rfl⟩, rfl, rfl, rfl, rfl⟩

/-- C4 (amended): when the trimmed text does not parse directly, the function
parses the single greedy brace-delimited span (first opening brace to last
closing brace, spanning newlines); if that span parses, its parse is
returned. -/
theorem c4_greedy_span_salvage (loads : String → Option JsonVal)
    (text sub : String) (v : JsonVal)
    (h1 : pyStrip text ≠ "") (h2 : loads (pyStrip text) = none)
    (h3 : braceSpan (pyStrip text) = some sub) (h4 : loads sub = some v) :
    _extract_json_anywhere loads text = some v := by
  simp [_extract_json_anywhere, h1, h2, h3, h4]

/-- Prose-wrapped response text from the spec's end-to-end scenario. -/
def c4wtext : String :=
  "Sure! Here is the answer: \x7b\"urgency_level\": \"Emergency\", \"recommended_authority\": \"SCDF\"\x7d"

/-- Witness for the amended C4 on the spec's prose-wrapped scenario text. -/
theorem c4_greedy_span_salvage_witness :
    _extract_json_anywhere json_loads c4wtext
      = some (.obj [("urgency_level", .str "Emergency"),
                    ("recommended_authority", .str "SCDF")]) :=
  c4_greedy_span_salvage json_loads c4wtext
    "\x7b\"urgency_level\": \"Emergency\", \"recommended_authority\": \"SCDF\"\x7d"
    (.obj [("urgency_level", .str "Emergency"),
           ("recommended_authority", .str "SCDF")])
    (by decide) rfl rfl rfl

theorem render_pill_eq (data : List (String × JsonVal)) :
    (render_decision data).pill_class =
      (if JsonVal.beq (dget data "urgency_level" (.str "Normal"))
          (.str "Emergency") then "danger"
       else if JsonVal.beq (dget data "urgency_level" (.str "Normal"))
          (.str "High") then "warn"
       else "ok") := rfl

theorem render_urgency_eq (data : List (String × JsonVal)) :
    (render_decision data).urgency = dget data "urgency_level" (.str "Normal") :=
  rfl

theorem render_next_steps_eq (data : List (String × JsonVal)) :
    (render_decision data).next_steps_bullets =
      bulletsOf (dget data "next_steps" (.arr [])) := rfl

theorem render_assessment_eq (data : List (String × JsonVal)) :
    (render_decision data).assessment_block =
      (if pyTruthy (dget data "assessment" (.str "")) then
        .val (dget data "assessment" (.str ""))
       else .placeholder noAssessmentHtml) := rfl

theorem render_authority_block_eq (data : List (String × JsonVal)) :
    (render_decision data).authority_block =
      (if pyTruthy (dget data "recommended_authority_details" (.str "")) then
        .val (dget data "recommended_authority_details" (.str ""))
       else .placeholder notEnoughInfoHtml) := rfl

/-- C5: the urgency pill class is assigned by exact, case-sensitive equality
on the `urgency_level` value — `"Emergency"` gives the danger class,
`"High"` the warning class, any other value (missing included, lowercase
`"emergency"` included) the default ok class — and the urgency value itself
is passed to the template exactly as stored, unvalidated. -/
theorem c5_urgency_pill_class (data : List (String × JsonVal)) :
    (data.lookup "urgency_level" = some (.str "Emergency") →
      (render_decision data).pill_class = "danger")
    ∧ (data.lookup "urgency_level" = some (.str "High") →
      (render_decision data).pill_class = "warn")
    ∧ (∀ v, data.lookup "urgency_level" = some v →
        v ≠ .str "Emergency" → v ≠ .str "High" →
        (render_decision data).pill_class = "ok")
    ∧ (data.lookup "urgency_level" = none →
        (render_decision data).pill_class = "ok")
    ∧ (∀ v, data.lookup "urgency_level" = some v →
        (render_decision data).urgency = v) := by
  refine ⟨?_, ?_, ?_, ?_, ?_⟩
  · intro h
    rw [render_pill_eq]
    simp [dget, h, JsonVal.beq]
  · intro h
    rw [render_pill_eq]
    simp [dget, h, JsonVal.beq]
  · intro v h hne hnh
    have h1 : JsonVal.beq v (.str "Emergency") = false :=
      Bool.eq_false_iff.mpr (fun hb => hne ((JsonVal.beq_str_iff v _).mp hb))
    have h2 : JsonVal.beq v (.str "High") = false :=
      Bool.eq_false_iff.mpr (fun hb => hnh ((JsonVal.beq_str_iff v _).mp hb))
    rw [render_pill_eq]
    simp [dget, h, h1, h2]
  · intro h
    rw [render_pill_eq]
    simp [dget, h, JsonVal.beq]
  · intro v h
    rw [render_urgency_eq]
    simp [dget, h]

/-- Witness for C5 at concrete Recommendation mappings, including the
case-sensitivity check that lowercase "emergency" falls through to ok. -/
theorem c5_urgency_pill_class_witness :
    (render_decision [("urgency_level", .str "Emergency")]).pill_class = "danger"
    ∧ (render_decision [("urgency_level", .str "High")]).pill_class = "warn"
    ∧ (render_decision [("urgency_level", .str "emergency")]).pill_class = "ok"
    ∧ (render_decision []).pill_class = "ok"
    ∧ (render_decision [("urgency_level", .str "emergency")]).urgency
        = .str "emergency" :=
  ⟨(c5_urgency_pill_class _).1 rfl,
   (c5_urgency_pill_class _).2.1 rfl,
   (c5_urgency_pill_class _).2.2.1 (.str "emergency") rfl
     (by intro h; injection h with h2; exact absurd h2 (by decide))
     (by intro h; injection h with h2; exact absurd h2 (by decide)),
   (c5_urgency_pill_class _).2.2.2.1 rfl,
   (c5_urgency_pill_class _).2.2.2.2 (.str "emergency") rfl⟩

/-- The issue text of the C6 scenario. -/
def liftIssueText : String :=
  "The lift at Blk 210 has been down since yesterday."

/-- C6 (counterexample): at the claim's inputs the report form's outbound
`question` is NOT just the issue text plus the Location line — the submit
handler always appends a third line carrying the selected category (the
form's default selection is "Auto-detect"). -/
theorem c6_question_counterexample :
    (call_flowise_request defaultConfig "sid-1"
        (report_question liftIssueText "Tampines, Blk 210" "Auto-detect")
        (some [("location", "Tampines, Blk 210"),
               ("issue_category", "Auto-detect")])).map
      (fun r => r.body.question)
      = .ok (liftIssueText ++ "\nLocation: Tampines, Blk 210"
              ++ "\nCategory: Auto-detect")
    ∧ liftIssueText ++ "\nLocation: Tampines, Blk 210"
          ++ "\nCategory: Auto-detect"
        ≠ liftIssueText ++ "\nLocation: Tampines, Blk 210" := by
  exact ⟨rfl, by decide⟩

/-- C6 (amended): at the claim's inputs, the outbound payload's `question`
equals the exact input text, then the Location line, then a Category line
with the selected category (here the form default "Auto-detect"), and
nothing else. -/
theorem c6_question_amended :
    (call_flowise_request defaultConfig "sid-1"
        (report_question liftIssueText "Tampines, Blk 210" "Auto-detect")
        (some [("location", "Tampines, Blk 210"),
               ("issue_category", "Auto-detect")])).map
      (fun r => r.body.question)
      = .ok "The lift at Blk 210 has been down since yesterday.\nLocation: Tampines, Blk 210\nCategory: Auto-detect" :=
  rfl

/-- C7 (counterexample): an overrides mapping that is supplied but empty is
dropped by the `if extra:` truthiness test — the body carries no
`overrideConfig` even though overrides were supplied. -/
theorem c7_empty_overrides_counterexample :
    call_flowise_request defaultConfig "sid-1" "q" (some [])
      = .ok
        { method := "POST"
          url := "https://cloud.flowiseai.com/api/v1/prediction/28bddf08-01dc-4472-aa7f-e6f7e2c0297f"
          headers := [("Content-Type", "application/json")]
          body := { question := "q", sessionId := "sid-1",
                    overrideConfig := none }
          timeout := 180 } := rfl

/-- C7 (amended): with a configured chatflow id the call builds exactly one
POST to `<base>/api/v1/prediction/<flow id>` with timeout 180 and body
`question`/`sessionId`; `overrideConfig` is attached exactly when a
NON-EMPTY overrides mapping is supplied; the Authorization bearer header is
present if and only if an API key is configured, otherwise only the
Content-Type header is sent. -/
theorem c7_request_shape (cfg : FlowiseConfig) (sid q : String)
    (extra : Option (List (String × String))) (h : cfg.chatflowId ≠ "") :
    (call_flowise_request cfg sid q extra).map (fun r => r.method)
        = .ok "POST"
    ∧ (call_flowise_request cfg sid q extra).map (fun r => r.url)
        = .ok (cfg.baseUrl ++ "/api/v1/prediction/" ++ cfg.chatflowId)
    ∧ (call_flowise_request cfg sid q extra).map (fun r => r.timeout)
        = .ok 180
    ∧ (call_flowise_request cfg sid q extra).map (fun r => r.body.question)
        = .ok q
    ∧ (call_flowise_request cfg sid q extra).map (fun r => r.body.sessionId)
        = .ok sid
    ∧ ((call_flowise_request cfg sid q extra).map
          (fun r => r.body.overrideConfig) = .ok none
        ↔ (extra = none ∨ extra = some []))
    ∧ (∀ m, extra = some m → m ≠ [] →
        (call_flowise_request cfg sid q extra).map
          (fun r => r.body.overrideConfig) = .ok (some m))
    ∧ (call_flowise_request cfg sid q extra).map (fun r => r.headers)
        = .ok (if cfg.apiKey = "" then [("Content-Type", "application/json")]
               else [("Content-Type", "application/json"),
                     ("Authorization", "Bearer " ++ cfg.apiKey)]) := by
  refine ⟨?_, ?_, ?_, ?_, ?_, ?_, ?_, ?_⟩
  · simp [call_flowise_request, h, Except.map]
  · simp [call_flowise_request, h, Except.map]
  · simp [call_flowise_request, h, Except.map]
  · simp [call_flowise_request, h, Except.map]
  · simp [call_flowise_request, h, Except.map]
  · cases extra with
    | none => simp [call_flowise_request, h, Except.map]
    | some m =>
      cases m with
      | nil => simp [call_flowise_request, h, Except.map]
      | cons p rest => simp [call_flowise_request, h, Except.map]
  · intro m hm hne
    subst hm
    cases m with
    | nil => exact absurd rfl hne
    | cons p rest => simp [call_flowise_request, h, Except.map]
  · by_cases hk : cfg.apiKey = "" <;>
      simp [call_flowise_request, h, hk, Except.map]

/-- Witness for the amended C7 at a concrete configured call with an API key
and a non-empty overrides mapping. -/
theorem c7_request_shape_witness :
    (call_flowise_request ⟨"http://x", "flow1", "k"⟩ "s" "hello"
        (some [("location", "L")])).map (fun r => r.url)
      = .ok "http://x/api/v1/prediction/flow1"
    ∧ (call_flowise_request ⟨"http://x", "flow1", "k"⟩ "s" "hello"
        (some [("location", "L")])).map (fun r => r.body.overrideConfig)
      = .ok (some [("location", "L")])
    ∧ (call_flowise_request ⟨"http://x", "flow1", "k"⟩ "s" "hello"
        (some [("location", "L")])).map (fun r => r.headers)
      = .ok [("Content-Type", "application/json"),
             ("Authorization", "Bearer k")]
    ∧ (call_flowise_request ⟨"http://x", "flow1", "k"⟩ "s" "hello"
        (some [("location", "L")])).map (fun r => r.timeout) = .ok 180 :=
  ⟨(c7_request_shape ⟨"http://x", "flow1", "k"⟩ "s" "hello"
      (some [("location", "L")]) (by decide)).2.1,
   (c7_request_shape ⟨"http://x", "flow1", "k"⟩ "s" "hello"
      (some [("location", "L")]) (by decide)).2.2.2.2.2.2.1
      [("location", "L")] rfl (by decide),
   ((c7_request_shape ⟨"http://x", "flow1", "k"⟩ "s" "hello"
      (some [("location", "L")]) (by decide)).2.2.2.2.2.2.2).trans rfl,
   (c7_request_shape ⟨"http://x", "flow1", "k"⟩ "s" "hello"
      (some [("location", "L")]) (by decide)).2.2.1⟩

/-- C8: the renderer is a pure total function of the input mapping — in the
embedding this is totality of `render_decision` (the Python code reaches no
raising operation: every field access is `data.get(...)` with a default) and
purity (the mapping is only read, never written) — and on missing or empty
fields it degrades as claimed: an absent or empty `next_steps` list omits
the bulleted list, and a missing or empty assessment or authority-details
value renders the explicit placeholder snippet. -/
theorem c8_render_defaults (data : List (String × JsonVal)) :
    ((data.lookup "next_steps" = none
        ∨ data.lookup "next_steps" = some (.arr [])) →
      (render_decision data).next_steps_bullets = none)
    ∧ ((data.lookup "assessment" = none
        ∨ data.lookup "assessment" = some (.str "")) →
      (render_decision data).assessment_block
        = .placeholder noAssessmentHtml)
    ∧ ((data.lookup "recommended_authority_details" = none
        ∨ data.lookup "recommended_authority_details" = some (.str "")) →
      (render_decision data).authority_block
        = .placeholder notEnoughInfoHtml) := by
  refine ⟨?_, ?_, ?_⟩
  · intro h
    rw [render_next_steps_eq]
    rcases h with h | h <;> simp [dget, h, bulletsOf]
  · intro h
    rw [render_assessment_eq]
    rcases h with h | h <;> simp [dget, h, pyTruthy]
  · intro h
    rw [render_authority_block_eq]
    rcases h with h | h <;> simp [dget, h, pyTruthy]

/-- Witness for C8 on the empty mapping (every field absent) and on an
explicit empty `next_steps` list. -/
theorem c8_render_defaults_witness :
    (render_decision []).next_steps_bullets = none
    ∧ (render_decision []).assessment_block = .placeholder noAssessmentHtml
    ∧ (render_decision []).authority_block = .placeholder notEnoughInfoHtml
    ∧ (render_decision [("next_steps", .arr [])]).next_steps_bullets = none :=
  ⟨(c8_render_defaults []).1 (Or.inl rfl),
   (c8_render_defaults []).2.1 (Or.inl rfl),
   (c8_render_defaults []).2.2 (Or.inl rfl),
   (c8_render_defaults [("next_steps", .arr [])]).1 (Or.inr rfl)⟩

/-- C9: whenever the extractor returns normally the returned JSON value is
truthy (in particular never the empty object), and the whole extraction
equals the in-order scan of all probed candidates that skips every
successful-but-falsy parse exactly like a failed parse, continuing with the
next candidate. -/
theorem c9_truthy_result_invariant (loads : String → Option JsonVal)
    (resp : FlowiseResp) :
    (∀ v, extract_json_from_flowise_response loads resp = .ok v →
      pyTruthy v = true)
    ∧ extract_json_from_flowise_response loads resp =
        (match firstTruthyParse loads (allCandidates resp) with
         | some v => Except.ok v
         | none => Except.error flowiseNoJsonMsg) := by
  constructor
  · intro v h
    rw [extract_eq_scan] at h
    cases hc : firstTruthyParse loads (allCandidates resp) with
    | some w =>
      rw [hc] at h
      have h' : Except.ok (ε := String) w = Except.ok v := h
      cases h'
      exact firstTruthyParse_truthy loads _ v hc
    | none =>
      rw [hc] at h
      exact absurd h (by simp)
  · exact extract_eq_scan loads resp

/-- Response used to witness C9: the top-level text parses successfully but
to the falsy value `0`, which is skipped in favour of the trace object. -/
def c9resp : FlowiseResp :=
  ⟨"0", [⟨some [("content", some "\x7b\"a\": 1\x7d")]⟩]⟩

/-- Witness for C9: the falsy direct parse of the text "0" is skipped,
probing continues into the trace, and the returned value is truthy. -/
theorem c9_truthy_result_invariant_witness :
    extract_json_from_flowise_response json_loads c9resp
        = .ok (.obj [("a", .num 1)])
    ∧ pyTruthy (JsonVal.obj [("a", .num 1)]) = true :=
  ⟨((c9_truthy_result_invariant json_loads c9resp).2).trans rfl,
   (c9_truthy_result_invariant json_loads c9resp).1 (.obj [("a", .num 1)])
     (((c9_truthy_result_invariant json_loads c9resp).2).trans rfl)⟩

/-- Test for `isinstance(value, dict)` on a decoded JSON value. -/
def JsonVal.isObj : JsonVal → Bool
  | .obj _ => true
  | _ => false

/-- C10: the extractor can return a value that is not a mapping at all — a
top-level text decoding to a (truthy) JSON array or string is returned
directly, despite the declared `dict` return type. -/
theorem c10_non_mapping_result :
    extract_json_from_flowise_response json_loads ⟨"[1, 2]", []⟩
        = .ok (.arr [.num 1, .num 2])
    ∧ extract_json_from_flowise_response json_loads ⟨"\"hello\"", []⟩
        = .ok (.str "hello")
    ∧ JsonVal.isObj (.arr [.num 1, .num 2]) = false
    ∧ JsonVal.isObj (.str "hello") = false :=
  ⟨rfl, rfl, rfl, rfl⟩
